import Mathlib

/-!
# ifwr: a shallow embedding of `src/ifwr.go`

`ifwr` runs a command, forwards its standard output and standard error through
two `didWrite` wrappers, and derives its own exit code from the error returned
by `cmd.Run()` and from what the wrappers noted.

What the Go source computes itself is embedded as Lean functions with the
source's names (`fail`, `unknown`, `didWrite`, `didWrite.Write`,
`didWrite.failed`, `exitCode`, `main`).  What the source obtains from the Go
standard library is an input of the model:

* the outcome of `flag.Parse()` (the two flag cells and `flag.Args()`),
* the behaviour of the embedded `io.Writer` (`Writer.respond`),
* the outcome of `cmd.Run()` (`RunOutcome`): the `Write` calls made on
  `cmd.Stdout` and `cmd.Stderr` while the command ran, and the returned error.

The error `cmd.Run()` returns is not the command's exit status alone: a
command that exits with status 0 still yields an error when a forwarding
`Write` failed (`waitError`), and `main` then takes its error branch.
-/

namespace Ifwr

/-! ## Constants (ifwr.go, lines 26-29) -/

/-- Exit code used when the command succeeded but a tracked stream was written. -/
def fail : Int := 255

/-- Exit code used when something went wrong. -/
def unknown : Int := 254

/-! ## The Go values the program handles -/

/-- A Go `error` value, identified with the text of its `Error()` method;
`none` is the nil error. -/
abbrev GoError := Option String

/-- An `io.Writer`.  Its behaviour is a function `respond` giving, for the
chunks received before and the chunk written now, the pair `(n, err)` that its
`Write` method returns; `received` records every chunk handed to it so far,
oldest first. -/
structure Writer where
  respond : List (List UInt8) → List UInt8 → Int × GoError
  received : List (List UInt8)

/-- One call of the `Write` method of an `io.Writer`: the returned `(n, err)`
and the writer afterwards. -/
def Writer.Write (w : Writer) (p : List UInt8) : (Int × GoError) × Writer :=
  (w.respond w.received p, { w with received := w.received ++ [p] })

/-- The two `bool` cells allocated by `flag.Bool("1", ...)` and
`flag.Bool("2", ...)` (ifwr.go, lines 61-62). -/
structure Flags where
  trackStdout : Bool
  trackStderr : Bool
deriving DecidableEq

/-- A `*bool` pointing at one of the two flag cells. -/
inductive FlagPtr where
  | trackStdout
  | trackStderr
deriving DecidableEq

/-- Dereference of a `*bool`. -/
def Flags.deref (f : Flags) : FlagPtr → Bool
  | .trackStdout => f.trackStdout
  | .trackStderr => f.trackStderr

/-! ## `didWrite` (ifwr.go, lines 31-46) -/

/-- The struct `didWrite`: an embedded `io.Writer`, the `wrote` mark and the
pointer `track` to a flag cell. -/
structure didWrite where
  Writer : Writer
  wrote : Bool
  track : FlagPtr

/-- Method `(d *didWrite) Write(p []byte) (int, error)`: marks `wrote` when `p`
is not empty, then returns what the embedded writer returns for `p`. -/
def didWrite.Write (d : didWrite) (p : List UInt8) : (Int × GoError) × didWrite :=
  let d1 : didWrite := if p.length > 0 then { d with wrote := true } else d
  let r := d1.Writer.Write p
  (r.1, { d1 with Writer := r.2 })

/-- Method `(d *didWrite) failed() bool`: `*d.track && d.wrote`. -/
def didWrite.failed (flags : Flags) (d : didWrite) : Bool :=
  flags.deref d.track && d.wrote

/-! ## `exitCode` (ifwr.go, lines 48-56) -/

/-- The value returned by `err.Sys()` of an `*exec.ExitError`, as far as
`exitCode` inspects it: either its dynamic type has a method
`ExitStatus() int`, which returns `status`, or it has not. -/
inductive SysValue where
  | hasExitStatus (status : Int)
  | noExitStatus
deriving DecidableEq

/-- Function `exitCode`: `unknown` when the type assertion fails, the result
of `ExitStatus()` otherwise. -/
def exitCode : SysValue → Int
  | .noExitStatus => unknown
  | .hasExitStatus status => status

/-! ## The Go runtime as seen by `main` -/

/-- Go on Linux: `syscall.WaitStatus` is a `uint32`; the low seven bits hold
the terminating signal (zero for a normal exit), the next byte the exit
status. -/
abbrev WaitStatus := Nat

/-- Go on Linux, `func (w WaitStatus) Exited() bool { return w&mask == exited }`
with `mask = 0x7F`, `exited = 0`. -/
def WaitStatus.Exited (w : WaitStatus) : Bool := w &&& 0x7F == 0

/-- Go on Linux, `func (w WaitStatus) ExitStatus() int`: `-1` unless
`w.Exited()`, else `int(w>>shift) & 0xFF` with `shift = 8`. -/
def WaitStatus.ExitStatus (w : WaitStatus) : Int :=
  if !WaitStatus.Exited w then -1 else (((w >>> 8) &&& 0xFF : Nat) : Int)

/-- On Linux `err.Sys()` is a `syscall.WaitStatus`, whose method set contains
`ExitStatus() int`. -/
def WaitStatus.toSys (w : WaitStatus) : SysValue :=
  .hasExitStatus (WaitStatus.ExitStatus w)

/-- The non-nil errors `cmd.Run()` can return, as `main` tells them apart
(ifwr.go, line 88): an `*exec.ExitError` with its `Sys()` value, or any other
error with its text. -/
inductive RunError where
  | exitError (sys : SysValue)
  | other (msg : String)
deriving DecidableEq

/-- The stream of the command a `Write` call belongs to. -/
inductive Channel where
  | stdout
  | stderr
deriving DecidableEq

/-- What one execution of `cmd.Run()` does, seen from `main`: either the
command could not be started, and `Run` returns the error of `Start` without a
single `Write` call, or the command ran, its output arrived as a sequence of
`Write` calls on `cmd.Stdout` and `cmd.Stderr`, and `Run` returned `err`. -/
inductive RunOutcome where
  | startFailed (msg : String)
  | ran (writes : List (Channel × List UInt8)) (err : Option RunError)

/-- The `Write` calls made during `cmd.Run()`. -/
def RunOutcome.writes : RunOutcome → List (Channel × List UInt8)
  | .startFailed _ => []
  | .ran ws _ => ws

/-- The error returned by `cmd.Run()`. -/
def RunOutcome.err : RunOutcome → Option RunError
  | .startFailed msg => some (.other msg)
  | .ran _ e => e

/-- Go's `os/exec`, the error `(*Cmd).Wait` hands to `Run` for a command that
started and ended with wait status `w`: when the command did not succeed
(`!state.Success()`, on Linux `ExitStatus() != 0`) an `*exec.ExitError` with
that status; otherwise the error `copyErr` of the goroutines that copy the
command's output to `cmd.Stdout` and `cmd.Stderr` (a failed `Write`), nil when
every `Write` succeeded. -/
def waitError (w : WaitStatus) (copyErr : GoError) : Option RunError :=
  if WaitStatus.ExitStatus w != 0 then some (.exitError (WaitStatus.toSys w))
  else copyErr.map RunError.other

/-- What the program writes to standard error itself, not through a
`didWrite`: a line printed by the `log` package (`log.SetFlags(0)`: the text
alone), or the output of `flag.PrintDefaults()`. -/
inductive LogEvent where
  | line (text : String)
  | printDefaults
deriving DecidableEq

/-- The surroundings of one run: `os.Args[0]`, the files `os.Stdout` and
`os.Stderr`, and what running a command (name and arguments) does. -/
structure Env where
  arg0 : String
  osStdout : Writer
  osStderr : Writer
  run : String → List String → RunOutcome

/-- The closure assigned to `flag.Usage` (ifwr.go, lines 63-67). -/
def usage (arg0 : String) : List LogEvent :=
  [ .line (arg0 ++ ": [flags] cmd args*"),
    .printDefaults,
    .line "Both -1 and -2 may be set. If neither are specified, -2 is set implicitly." ]

/-- Lines 75-77 of ifwr.go: when neither cell is set, `*trackStderr = true`. -/
def finalize (f : Flags) : Flags :=
  if !f.trackStdout && !f.trackStderr then { f with trackStderr := true } else f

/-- The effect of `cmd.Run()` on `cmd.Stdout` and `cmd.Stderr`: every `Write`
call goes to the wrapper of its stream, in order. -/
def deliver (Stdout Stderr : didWrite) : List (Channel × List UInt8) → didWrite × didWrite
  | [] => (Stdout, Stderr)
  | (.stdout, p) :: rest => deliver (Stdout.Write p).2 Stderr rest
  | (.stderr, p) :: rest => deliver Stdout (Stderr.Write p).2 rest

/-- How a run of the program ends: the exit code (the argument of `os.Exit`,
or `0` when `main` returns), what the program itself printed to standard
error, the flag cells, the command handed to `exec.Command` and run (if any),
and the two wrappers (if they were created). -/
structure Final where
  code : Int
  log : List LogEvent
  flags : Flags
  command : Option (String × List String)
  wrappers : Option (didWrite × didWrite)

/-- Function `main` (ifwr.go, lines 58-99), after `flag.Parse()` has filled
the two flag cells (`parsed`) and left `args = flag.Args()`. -/
def main (env : Env) (parsed : Flags) (args : List String) : Final :=
  match args with
  | [] =>
    { code := 2
      log := .line "No command given" :: usage env.arg0
      flags := parsed
      command := none
      wrappers := none }
  | name :: rest =>
    let flags := finalize parsed
    let Stdout : didWrite := { Writer := env.osStdout, wrote := false, track := .trackStdout }
    let Stderr : didWrite := { Writer := env.osStderr, wrote := false, track := .trackStderr }
    let outcome := env.run name rest
    let ws := deliver Stdout Stderr outcome.writes
    match outcome.err with
    | some (.exitError sys) =>
      { code := exitCode sys, log := [], flags := flags,
        command := some (name, rest), wrappers := some ws }
    | some (.other msg) =>
      { code := unknown, log := [.line msg], flags := flags,
        command := some (name, rest), wrappers := some ws }
    | none =>
      if ws.1.failed flags || ws.2.failed flags then
        { code := fail, log := [], flags := flags,
          command := some (name, rest), wrappers := some ws }
      else
        { code := 0, log := [], flags := flags,
          command := some (name, rest), wrappers := some ws }

/-! ## Drivers: sequences of calls -/

/-- A sequence of `Write` calls on an `io.Writer`: the results, in order, and
the writer afterwards. -/
def Writer.writeAll (w : Writer) : List (List UInt8) → List (Int × GoError) × Writer
  | [] => ([], w)
  | p :: ps =>
    let r := w.Write p
    let rs := Writer.writeAll r.2 ps
    (r.1 :: rs.1, rs.2)

/-- A sequence of `Write` calls on a `didWrite`: the results, in order, and the
wrapper afterwards. -/
def didWrite.writeAll (d : didWrite) : List (List UInt8) → List (Int × GoError) × didWrite
  | [] => ([], d)
  | p :: ps =>
    let r := d.Write p
    let rs := didWrite.writeAll r.2 ps
    (r.1 :: rs.1, rs.2)

/-- A call of one of the two methods of `didWrite`. -/
inductive Call where
  | Write (p : List UInt8)
  | failed

/-- The wrapper after a call: `Write` as above; `failed` assigns no field. -/
def didWrite.call (d : didWrite) : Call → didWrite
  | .Write p => (d.Write p).2
  | .failed => d

/-- The wrapper after a sequence of calls. -/
def didWrite.calls (d : didWrite) (cs : List Call) : didWrite :=
  cs.foldl didWrite.call d

/-- Whether a call is a `Write` of a non-empty chunk. -/
def Call.writesBytes : Call → Bool
  | .Write p => decide (p.length > 0)
  | .failed => false

/-- Whether some `Write` call on stream `c` carried a non-empty chunk. -/
def wroteOn (c : Channel) (ws : List (Channel × List UInt8)) : Bool :=
  ws.any (fun e => e.1 == c && decide (e.2.length > 0))

/-- The chunks of the `Write` calls on stream `c`, in order. -/
def chunksOn (c : Channel) (ws : List (Channel × List UInt8)) : List (List UInt8) :=
  (ws.filter (fun e => e.1 == c)).map (fun e => e.2)

/-! ## Concrete surroundings used to evaluate the program -/

/-- A file that accepts every chunk whole. -/
def acceptAll : Writer :=
  { respond := fun _ p => ((p.length : Int), none), received := [] }

/-- A closed pipe: accepts no byte of any chunk and reports an error. -/
def closedPipe : Writer :=
  { respond := fun _ _ => (0, some "write /dev/stdout: broken pipe"), received := [] }

/-- Surroundings in which both standard streams accept everything and running
the command has the outcome `o`. -/
def envWith (o : RunOutcome) : Env :=
  { arg0 := "ifwr", osStdout := acceptAll, osStderr := acceptAll, run := fun _ _ => o }

/-- The bytes of `"hello\n"`. -/
def helloLine : List UInt8 := [104, 101, 108, 108, 111, 10]

/-- The bytes of `"oops\n"`. -/
def oopsLine : List UInt8 := [111, 111, 112, 115, 10]

/-- A command that prints `oops` on standard error and exits with status 3
(wait status `3 << 8`). -/
def exitsThree : RunOutcome :=
  .ran [(.stderr, oopsLine)] (some (.exitError (WaitStatus.toSys 768)))

/-- A command killed by signal 9 before it wrote anything (wait status `9`). -/
def killedBySignal : RunOutcome :=
  .ran [] (some (.exitError (WaitStatus.toSys 9)))

/-- A command whose exit error carries a `Sys()` value without `ExitStatus`. -/
def noStatus : RunOutcome :=
  .ran [(.stdout, helloLine)] (some (.exitError .noExitStatus))

/-- The command `echo hello`: one chunk on standard output, exit status 0. -/
def echoHello : RunOutcome :=
  .ran [(.stdout, helloLine)] none

/-- A command that prints `oops` on standard error and exits with status 0. -/
def warnsOnly : RunOutcome :=
  .ran [(.stderr, oopsLine)] none

/-- A command that cannot be started. -/
def notFound : RunOutcome :=
  .startFailed "exec: \"nosuchcmd\": executable file not found in $PATH"

/-- The text of the error a write to the full device `path` returns. -/
def noSpace (path : String) : String :=
  "write " ++ path ++ ": no space left on device"

/-- The device `/dev/full` opened as `path`: accepts no byte of any chunk and
reports that no space is left. -/
def fullDevice (path : String) : Writer :=
  { respond := fun _ _ => (0, some (noSpace path)), received := [] }

/-- Surroundings in which standard output is redirected to `/dev/full` and
running the command has the outcome `o`. -/
def envStdoutFull (o : RunOutcome) : Env :=
  { arg0 := "ifwr", osStdout := fullDevice "/dev/stdout", osStderr := acceptAll,
    run := fun _ _ => o }

/-- Surroundings in which standard error is redirected to `/dev/full` and
running the command has the outcome `o`. -/
def envStderrFull (o : RunOutcome) : Env :=
  { arg0 := "ifwr", osStdout := acceptAll, osStderr := fullDevice "/dev/stderr",
    run := fun _ _ => o }

/-- The command `echo hello` under `envStdoutFull`: it exits with status 0
(wait status `0`), its one chunk reaches the wrapper of standard output, whose
`Write` fails, and `cmd.Run()` returns that error. -/
def echoHelloStdoutFull : RunOutcome :=
  .ran [(.stdout, helloLine)] (waitError 0 (some (noSpace "/dev/stdout")))

/-- A command that prints `oops` on standard error and exits with status 0,
under `envStderrFull`: the `Write` of the wrapper of standard error fails and
`cmd.Run()` returns that error. -/
def warnsOnlyStderrFull : RunOutcome :=
  .ran [(.stderr, oopsLine)] (waitError 0 (some (noSpace "/dev/stderr")))

/-- A wrapper around a closed pipe, nothing noted yet. -/
def overClosedPipe : didWrite :=
  { Writer := closedPipe, wrote := false, track := .trackStdout }

/-! ## Lemmas on `didWrite.Write` and `deliver` -/

/-- After `Write`, `wrote` is the old mark OR "the chunk is non-empty". -/
theorem didWrite.Write_wrote (d : didWrite) (p : List UInt8) :
    (d.Write p).2.wrote = (d.wrote || decide (p.length > 0)) := by
  unfold didWrite.Write
  by_cases h : p.length > 0 <;> simp [h]

/-- `Write` leaves the pointer `track` alone. -/
theorem didWrite.Write_track (d : didWrite) (p : List UInt8) :
    (d.Write p).2.track = d.track := by
  unfold didWrite.Write
  by_cases h : p.length > 0 <;> simp [h]

/-- After `Write`, the embedded writer is the old one after one `Write` of the chunk. -/
theorem didWrite.Write_Writer (d : didWrite) (p : List UInt8) :
    (d.Write p).2.Writer = (d.Writer.Write p).2 := by
  unfold didWrite.Write
  by_cases h : p.length > 0 <;> simp [h]

/-- The result of `Write` is the result of the embedded writer. -/
theorem didWrite.Write_result (d : didWrite) (p : List UInt8) :
    (d.Write p).1 = (d.Writer.Write p).1 := by
  unfold didWrite.Write
  by_cases h : p.length > 0 <;> simp [h]

/-- After a run, each wrapper has noted a write exactly if it had before or a
non-empty chunk arrived on its stream. -/
theorem deliver_wrote (ws : List (Channel × List UInt8)) (S E : didWrite) :
    (deliver S E ws).1.wrote = (S.wrote || wroteOn .stdout ws) ∧
    (deliver S E ws).2.wrote = (E.wrote || wroteOn .stderr ws) := by
  induction ws generalizing S E with
  | nil => simp [deliver, wroteOn]
  | cons e rest ih =>
    obtain ⟨c, p⟩ := e
    cases c
    · have h := ih (S.Write p).2 E
      have hne : (Channel.stdout == Channel.stderr) = false := by decide
      simp only [deliver, h, didWrite.Write_wrote]
      simp [wroteOn, Bool.or_assoc, hne]
    · have h := ih S (E.Write p).2
      have hne : (Channel.stderr == Channel.stdout) = false := by decide
      simp only [deliver, h, didWrite.Write_wrote]
      simp [wroteOn, Bool.or_assoc, hne]

/-- A run leaves the `track` pointers alone. -/
theorem deliver_track (ws : List (Channel × List UInt8)) (S E : didWrite) :
    (deliver S E ws).1.track = S.track ∧ (deliver S E ws).2.track = E.track := by
  induction ws generalizing S E with
  | nil => simp [deliver]
  | cons e rest ih =>
    obtain ⟨c, p⟩ := e
    cases c
    · have h := ih (S.Write p).2 E
      simp only [deliver, h, didWrite.Write_track]
      simp
    · have h := ih S (E.Write p).2
      simp only [deliver, h, didWrite.Write_track]
      simp

/-- After a run, each embedded writer has received the chunks of its stream, in
order. -/
theorem deliver_received (ws : List (Channel × List UInt8)) (S E : didWrite) :
    (deliver S E ws).1.Writer.received = S.Writer.received ++ chunksOn .stdout ws ∧
    (deliver S E ws).2.Writer.received = E.Writer.received ++ chunksOn .stderr ws := by
  induction ws generalizing S E with
  | nil => simp [deliver, chunksOn]
  | cons e rest ih =>
    obtain ⟨c, p⟩ := e
    cases c
    · have h := ih (S.Write p).2 E
      have hne : (Channel.stdout == Channel.stderr) = false := by decide
      simp only [deliver, h, didWrite.Write_Writer]
      simp [chunksOn, Writer.Write, hne]
    · have h := ih S (E.Write p).2
      have hne : (Channel.stderr == Channel.stdout) = false := by decide
      simp only [deliver, h, didWrite.Write_Writer]
      simp [chunksOn, Writer.Write, hne]

/-- Unfolding of `wroteOn`. -/
theorem wroteOn_eq_true (c : Channel) (ws : List (Channel × List UInt8)) :
    wroteOn c ws = true ↔ ∃ p, (c, p) ∈ ws ∧ p ≠ [] := by
  unfold wroteOn
  simp only [List.any_eq_true, Bool.and_eq_true, beq_iff_eq, decide_eq_true_eq]
  constructor
  · rintro ⟨⟨c1, p⟩, hmem, hc, hp⟩
    simp only at hc hp
    subst hc
    exact ⟨p, hmem, by intro h; simp [h] at hp⟩
  · rintro ⟨p, hmem, hp⟩
    exact ⟨(c, p), hmem, rfl, List.length_pos.mpr hp⟩


/-! ## Lemmas on `main` -/

/-- The branch of lines 88-90: an exit error ends the program with
`exitCode` of it and without a log line. -/
theorem main_exitError (env : Env) (parsed : Flags) (name : String) (rest : List String)
    (ws : List (Channel × List UInt8)) (sys : SysValue)
    (hrun : env.run name rest = .ran ws (some (.exitError sys))) :
    (main env parsed (name :: rest)).code = exitCode sys ∧
    (main env parsed (name :: rest)).log = [] := by
  simp [main, hrun, RunOutcome.err]

/-- The branch of lines 96-98: when `cmd.Run()` returns nil the exit code is
255 or 0 according to the flag cells and the writes noted. -/
theorem main_success (env : Env) (parsed : Flags) (name : String) (rest : List String)
    (ws : List (Channel × List UInt8))
    (hrun : env.run name rest = .ran ws none) :
    (main env parsed (name :: rest)).code =
      if ((finalize parsed).trackStdout && wroteOn .stdout ws
          || (finalize parsed).trackStderr && wroteOn .stderr ws) = true
      then 255 else 0 := by
  have hw := deliver_wrote ws
    { Writer := env.osStdout, wrote := false, track := .trackStdout }
    { Writer := env.osStderr, wrote := false, track := .trackStderr }
  have ht := deliver_track ws
    { Writer := env.osStdout, wrote := false, track := .trackStdout }
    { Writer := env.osStderr, wrote := false, track := .trackStderr }
  simp only [main, hrun, RunOutcome.err, RunOutcome.writes, didWrite.failed, hw.1, hw.2,
    ht.1, ht.2, Flags.deref, Bool.false_or]
  split <;> simp_all [fail]

/-! ## The exit code when the command fails -/

/-- C1: for every flag combination and every pattern of writes, if the command
runs to completion with a non-zero exit status `n` (the exit error's `Sys()`
value reports `ExitStatus() = n`), the exit code of the program is exactly `n`,
also when a tracked stream was written. -/
theorem C1_nonzero_status_passes_through (env : Env) (parsed : Flags) (name : String)
    (rest : List String) (ws : List (Channel × List UInt8)) (n : Int) (_hn : n ≠ 0)
    (hrun : env.run name rest = .ran ws (some (.exitError (.hasExitStatus n)))) :
    (main env parsed (name :: rest)).code = n := by
  simp [main, hrun, RunOutcome.err, exitCode]

/-- C1, evaluated: no flags, the command writes to standard error and exits
with status 3; standard error is tracked and was written, the exit code is 3. -/
theorem C1_witness :
    WaitStatus.Exited 768 = true ∧
    (finalize ⟨false, false⟩).trackStderr = true ∧
    wroteOn .stderr exitsThree.writes = true ∧
    (main (envWith exitsThree) ⟨false, false⟩ ["sh", "-c", "echo oops >&2; exit 3"]).code = 3 :=
  ⟨by decide, by decide, by decide,
    C1_nonzero_status_passes_through (envWith exitsThree) ⟨false, false⟩ "sh"
      ["-c", "echo oops >&2; exit 3"] [(.stderr, oopsLine)] 3 (by decide) rfl⟩

/-- C2, as stated, fails: a command killed by signal 9 yields an exit error
whose wait status is not a normal exit; the program passes `-1` to `os.Exit`,
not 254, and prints no diagnostic line.  When the `Sys()` value has no
`ExitStatus` method the code is 254, but again nothing is printed. -/
theorem C2_counterexample :
    WaitStatus.Exited 9 = false ∧
    (main (envWith killedBySignal) ⟨false, false⟩ ["sh", "-c", "kill -9 $$"]).code = -1 ∧
    (main (envWith killedBySignal) ⟨false, false⟩ ["sh", "-c", "kill -9 $$"]).log = [] ∧
    (main (envWith noStatus) ⟨false, false⟩ ["echo", "hello"]).code = 254 ∧
    (main (envWith noStatus) ⟨false, false⟩ ["echo", "hello"]).log = [] ∧
    ¬ ((main (envWith killedBySignal) ⟨false, false⟩ ["sh", "-c", "kill -9 $$"]).code = 254 ∧
        ∃ msg, (main (envWith killedBySignal) ⟨false, false⟩
          ["sh", "-c", "kill -9 $$"]).log = [.line msg]) := by
  refine ⟨by decide, by decide, by decide, by decide, by decide, ?_⟩
  rintro ⟨h, _⟩
  revert h
  decide

/-- C2, amended: when `cmd.Run()` returns an exit error, the program prints no
diagnostic line of its own, for every flag combination and every pattern of
writes; and when the exit error's `Sys()` value has no `ExitStatus` method, the
exit code is 254. -/
theorem C2_exit_error_is_silent (env : Env) (parsed : Flags) (name : String)
    (rest : List String) (ws : List (Channel × List UInt8)) (sys : SysValue)
    (hrun : env.run name rest = .ran ws (some (.exitError sys))) :
    (main env parsed (name :: rest)).log = [] ∧
    (sys = .noExitStatus → (main env parsed (name :: rest)).code = 254) := by
  refine ⟨(main_exitError env parsed name rest ws sys hrun).2, ?_⟩
  intro hs
  rw [(main_exitError env parsed name rest ws sys hrun).1, hs]
  rfl

/-- C2 amended, evaluated on an exit error without `ExitStatus`. -/
theorem C2_witness :
    (main (envWith noStatus) ⟨true, false⟩ ["echo", "hello"]).log = [] ∧
    (main (envWith noStatus) ⟨true, false⟩ ["echo", "hello"]).code = 254 :=
  ⟨(C2_exit_error_is_silent (envWith noStatus) ⟨true, false⟩ "echo" ["hello"]
      [(.stdout, helloLine)] .noExitStatus rfl).1,
   (C2_exit_error_is_silent (envWith noStatus) ⟨true, false⟩ "echo" ["hello"]
      [(.stdout, helloLine)] .noExitStatus rfl).2 rfl⟩

/-! ## The exit code when the command succeeds -/

/-- C3, as stated, fails: with `-1`, `echo hello` and standard output on
`/dev/full`, the command exits with status 0 and a non-empty chunk reaches the
tracked standard output, whose wrapper notes it; but the forwarding `Write`
fails, `cmd.Run()` returns that error, and the program logs it and exits with
254, not 255. -/
theorem C3_counterexample :
    WaitStatus.ExitStatus 0 = 0 ∧
    (finalize ⟨true, false⟩).trackStdout = true ∧
    (Channel.stdout, helloLine) ∈ echoHelloStdoutFull.writes ∧
    helloLine ≠ [] ∧
    ((fullDevice "/dev/stdout").Write helloLine).1
      = (0, some "write /dev/stdout: no space left on device") ∧
    echoHelloStdoutFull.err
      = some (.other "write /dev/stdout: no space left on device") ∧
    ((main (envStdoutFull echoHelloStdoutFull) ⟨true, false⟩ ["echo", "hello"]).wrappers.map
      (fun w => w.1.failed (finalize ⟨true, false⟩))) = some true ∧
    (main (envStdoutFull echoHelloStdoutFull) ⟨true, false⟩ ["echo", "hello"]).code = 254 ∧
    (main (envStdoutFull echoHelloStdoutFull) ⟨true, false⟩ ["echo", "hello"]).log
      = [.line "write /dev/stdout: no space left on device"] ∧
    ¬ (main (envStdoutFull echoHelloStdoutFull) ⟨true, false⟩ ["echo", "hello"]).code = 255 := by
  refine ⟨by decide, by decide, by decide, by decide, by decide, by decide, by decide,
    by decide, by decide, by decide⟩

/-- C3, amended: for every flag combination, if `cmd.Run()` returns nil (the
command exited with status 0 and no forwarding `Write` failed) and some
non-empty chunk was written to standard output while `-1` is set, or to
standard error while `-2` is set (after the defaulting of lines 75-77), the
exit code is 255. -/
theorem C3_tracked_write_gives_255 (env : Env) (parsed : Flags) (name : String)
    (rest : List String) (ws : List (Channel × List UInt8))
    (hrun : env.run name rest = .ran ws none)
    (hw : ((finalize parsed).trackStdout = true ∧ ∃ p, (Channel.stdout, p) ∈ ws ∧ p ≠ []) ∨
          ((finalize parsed).trackStderr = true ∧ ∃ p, (Channel.stderr, p) ∈ ws ∧ p ≠ [])) :
    (main env parsed (name :: rest)).code = 255 := by
  rw [main_success env parsed name rest ws hrun]
  rcases hw with ⟨ht, hp⟩ | ⟨ht, hp⟩
  · have := (wroteOn_eq_true .stdout ws).mpr hp
    simp [ht, this]
  · have := (wroteOn_eq_true .stderr ws).mpr hp
    simp [ht, this]

/-- C3 amended, evaluated: flags `-1 -2`, command `echo hello`: standard output
receives `"hello\n"`, the exit code is 255. -/
theorem C3_witness :
    ((main (envWith echoHello) ⟨true, true⟩ ["echo", "hello"]).wrappers.map
      (fun w => w.1.Writer.received)) = some [helloLine] ∧
    (main (envWith echoHello) ⟨true, true⟩ ["echo", "hello"]).code = 255 :=
  ⟨by decide,
   C3_tracked_write_gives_255 (envWith echoHello) ⟨true, true⟩ "echo" ["hello"]
    [(.stdout, helloLine)] rfl
    (Or.inl ⟨by decide, helloLine, by decide, by decide⟩)⟩

/-- C4, as stated, fails: with `-2`, `echo hello` and standard output on
`/dev/full`, the command exits with status 0 and writes only to standard
output, which is not tracked; but the forwarding `Write` fails, `cmd.Run()`
returns that error, and the program logs it and exits with 254, not 0. -/
theorem C4_counterexample :
    WaitStatus.ExitStatus 0 = 0 ∧
    (finalize ⟨false, true⟩).trackStdout = false ∧
    wroteOn .stderr echoHelloStdoutFull.writes = false ∧
    ((fullDevice "/dev/stdout").Write helloLine).1
      = (0, some "write /dev/stdout: no space left on device") ∧
    echoHelloStdoutFull.err
      = some (.other "write /dev/stdout: no space left on device") ∧
    ((main (envStdoutFull echoHelloStdoutFull) ⟨false, true⟩ ["echo", "hello"]).wrappers.map
      (fun w => (w.1.failed (finalize ⟨false, true⟩), w.2.failed (finalize ⟨false, true⟩))))
      = some (false, false) ∧
    (main (envStdoutFull echoHelloStdoutFull) ⟨false, true⟩ ["echo", "hello"]).code = 254 ∧
    (main (envStdoutFull echoHelloStdoutFull) ⟨false, true⟩ ["echo", "hello"]).log
      = [.line "write /dev/stdout: no space left on device"] ∧
    ¬ (main (envStdoutFull echoHelloStdoutFull) ⟨false, true⟩ ["echo", "hello"]).code = 0 := by
  refine ⟨by decide, by decide, by decide, by decide, by decide, by decide, by decide,
    by decide, by decide⟩

/-- C4, amended: for every flag combination, if `cmd.Run()` returns nil (the
command exited with status 0 and no forwarding `Write` failed) and every chunk
written to a tracked stream was empty, the exit code is 0; bytes written to a
stream that is not tracked do not matter. -/
theorem C4_no_tracked_write_gives_0 (env : Env) (parsed : Flags) (name : String)
    (rest : List String) (ws : List (Channel × List UInt8))
    (hrun : env.run name rest = .ran ws none)
    (hout : (finalize parsed).trackStdout = true → ∀ p, (Channel.stdout, p) ∈ ws → p = [])
    (herr : (finalize parsed).trackStderr = true → ∀ p, (Channel.stderr, p) ∈ ws → p = []) :
    (main env parsed (name :: rest)).code = 0 := by
  rw [main_success env parsed name rest ws hrun]
  have h1 : ((finalize parsed).trackStdout && wroteOn .stdout ws) = false := by
    by_contra hc
    simp only [Bool.not_eq_false, Bool.and_eq_true] at hc
    obtain ⟨p, hm, hp⟩ := (wroteOn_eq_true .stdout ws).mp hc.2
    exact hp (hout hc.1 p hm)
  have h2 : ((finalize parsed).trackStderr && wroteOn .stderr ws) = false := by
    by_contra hc
    simp only [Bool.not_eq_false, Bool.and_eq_true] at hc
    obtain ⟨p, hm, hp⟩ := (wroteOn_eq_true .stderr ws).mp hc.2
    exact hp (herr hc.1 p hm)
  simp [h1, h2]

/-- C4 amended, evaluated: flag `-2` alone, the command writes `"hello\n"` to standard
output only and exits 0: the exit code is 0. -/
theorem C4_witness :
    (main (envWith echoHello) ⟨false, true⟩ ["echo", "hello"]).code = 0 :=
  C4_no_tracked_write_gives_0 (envWith echoHello) ⟨false, true⟩ "echo" ["hello"]
    [(.stdout, helloLine)] rfl
    (fun h => absurd h (by decide))
    (fun _ p hp => absurd hp (by simp))

/-- C5, as stated, fails in its exit codes: without flags, `echo hello` with
standard output on `/dev/full` exits 0 having written only to standard output,
yet the program exits with 254, not 0; and a command that exits 0 having
written only to standard error, with standard error on `/dev/full`, makes the
program exit with 254, not 255.  In both runs a forwarding `Write` failed and
`cmd.Run()` returned that error. -/
theorem C5_counterexample :
    WaitStatus.ExitStatus 0 = 0 ∧
    (∀ e ∈ echoHelloStdoutFull.writes, e.1 = Channel.stdout) ∧
    (main (envStdoutFull echoHelloStdoutFull) ⟨false, false⟩ ["echo", "hello"]).code = 254 ∧
    ¬ (main (envStdoutFull echoHelloStdoutFull) ⟨false, false⟩ ["echo", "hello"]).code = 0 ∧
    (∀ e ∈ warnsOnlyStderrFull.writes, e.1 = Channel.stderr) ∧
    (∃ e ∈ warnsOnlyStderrFull.writes, e.2 ≠ []) ∧
    warnsOnlyStderrFull.err = some (.other "write /dev/stderr: no space left on device") ∧
    (main (envStderrFull warnsOnlyStderrFull) ⟨false, false⟩
      ["sh", "-c", "echo oops >&2"]).code = 254 ∧
    ¬ (main (envStderrFull warnsOnlyStderrFull) ⟨false, false⟩
      ["sh", "-c", "echo oops >&2"]).code = 255 := by
  refine ⟨by decide, by decide, by decide, by decide, by decide, by decide, by decide,
    by decide, by decide⟩

/-- C5, amended: without `-1` and `-2` the defaulting sets the standard error
cell and leaves the standard output cell unset; when `cmd.Run()` returns nil
(the command exited with status 0 and no forwarding `Write` failed), a command
that wrote (at least one non-empty chunk) only to standard error gives exit
code 255, one that wrote only to standard output gives exit code 0. -/
theorem C5_default_tracks_stderr (env : Env) (name : String) (rest : List String)
    (ws : List (Channel × List UInt8))
    (hrun : env.run name rest = .ran ws none) :
    finalize ⟨false, false⟩ = ⟨false, true⟩ ∧
    (main env ⟨false, false⟩ (name :: rest)).flags = ⟨false, true⟩ ∧
    ((∀ e ∈ ws, e.1 = Channel.stderr) → (∃ e ∈ ws, e.2 ≠ []) →
      (main env ⟨false, false⟩ (name :: rest)).code = 255) ∧
    ((∀ e ∈ ws, e.1 = Channel.stdout) →
      (main env ⟨false, false⟩ (name :: rest)).code = 0) := by
  have hf : finalize ⟨false, false⟩ = ⟨false, true⟩ := by decide
  refine ⟨hf, ?_, ?_, ?_⟩
  · simp [main, hrun, RunOutcome.err, hf]
    split <;> rfl
  · intro hall ⟨e, he, hne⟩
    rw [main_success env _ name rest ws hrun, hf]
    have hc : e.1 = Channel.stderr := hall e he
    have : wroteOn .stderr ws = true :=
      (wroteOn_eq_true .stderr ws).mpr ⟨e.2, by rw [← hc]; exact he, hne⟩
    simp [this]
  · intro hall
    rw [main_success env _ name rest ws hrun, hf]
    have : wroteOn .stderr ws = false := by
      by_contra hc
      simp only [Bool.not_eq_false] at hc
      obtain ⟨p, hm, _⟩ := (wroteOn_eq_true .stderr ws).mp hc
      have hch : Channel.stderr = Channel.stdout := hall (Channel.stderr, p) hm
      exact Channel.noConfusion hch
    simp [this]

/-- C5 amended, evaluated: no flags; a command writing only to standard error gives
255, `echo hello` gives 0. -/
theorem C5_witness :
    (main (envWith warnsOnly) ⟨false, false⟩ ["sh", "-c", "echo oops >&2"]).code = 255 ∧
    (main (envWith echoHello) ⟨false, false⟩ ["echo", "hello"]).code = 0 :=
  ⟨(C5_default_tracks_stderr (envWith warnsOnly) "sh" ["-c", "echo oops >&2"]
      [(.stderr, oopsLine)] rfl).2.2.1
      (by intro e he; simp at he; rw [he])
      ⟨(.stderr, oopsLine), by simp, by decide⟩,
   (C5_default_tracks_stderr (envWith echoHello) "echo" ["hello"]
      [(.stdout, helloLine)] rfl).2.2.2
      (by intro e he; simp at he; rw [he])⟩

/-! ## Failure to start, and missing command -/

/-- C6: if the command cannot be started (`cmd.Run()` returns the error of
`Start`, which is not an exit error, and no `Write` call was made), then for
every flag combination the exit code is 254, the program prints the error as
one diagnostic line, and neither wrapper has received anything: both still
hold the untouched `os.Stdout` and `os.Stderr` and have noted no write. -/
theorem C6_start_failure_gives_254 (env : Env) (parsed : Flags) (name : String)
    (rest : List String) (msg : String)
    (hrun : env.run name rest = .startFailed msg) :
    (main env parsed (name :: rest)).code = 254 ∧
    (main env parsed (name :: rest)).log = [.line msg] ∧
    (main env parsed (name :: rest)).wrappers =
      some ({ Writer := env.osStdout, wrote := false, track := .trackStdout },
            { Writer := env.osStderr, wrote := false, track := .trackStderr }) := by
  simp [main, hrun, RunOutcome.err, RunOutcome.writes, deliver, unknown]

/-- C6, evaluated on a command that is not found, with both flags set. -/
theorem C6_witness :
    (main (envWith notFound) ⟨true, true⟩ ["nosuchcmd"]).code = 254 ∧
    (main (envWith notFound) ⟨true, true⟩ ["nosuchcmd"]).log =
      [.line "exec: \"nosuchcmd\": executable file not found in $PATH"] ∧
    ((main (envWith notFound) ⟨true, true⟩ ["nosuchcmd"]).wrappers.map
      (fun w => (w.1.Writer.received, w.1.wrote, w.2.Writer.received, w.2.wrote)))
      = some ([], false, [], false) :=
  have h := C6_start_failure_gives_254 (envWith notFound) ⟨true, true⟩ "nosuchcmd" []
    "exec: \"nosuchcmd\": executable file not found in $PATH" rfl
  ⟨h.1, h.2.1, by rw [h.2.2]; rfl⟩

/-- C9: for every flag combination, when `flag.Args()` is empty the program
prints "No command given" and the usage text to standard error and exits with
code 2; no command is run and no wrapper is created, whatever running a
command would have done. -/
theorem C9_no_command_is_usage_error (env : Env) (parsed : Flags) :
    (main env parsed []).code = 2 ∧
    (main env parsed []).log =
      [ .line "No command given",
        .line (env.arg0 ++ ": [flags] cmd args*"),
        .printDefaults,
        .line "Both -1 and -2 may be set. If neither are specified, -2 is set implicitly." ] ∧
    (main env parsed []).command = none ∧
    (main env parsed []).wrappers = none ∧
    ∀ run2 : String → List String → RunOutcome,
      main { env with run := run2 } parsed [] = main env parsed [] :=
  ⟨rfl, rfl, rfl, rfl, fun _ => rfl⟩

/-! ## The wrapper `didWrite` -/

/-- C7: for every wrapper state (any `track`, any `wrote`, any flag cells) and
every chunk, the empty one included, `didWrite.Write` hands exactly that chunk
to the embedded writer exactly once and returns exactly the `(n, err)` the
embedded writer returned; hence for every sequence of chunks the results and
the chunks received by the embedded writer are those of writing the sequence
to the embedded writer directly. -/
theorem C7_Write_forwards_unchanged (d : didWrite) (p : List UInt8)
    (ps : List (List UInt8)) :
    (d.Write p).1 = d.Writer.respond d.Writer.received p ∧
    (d.Write p).2.Writer.received = d.Writer.received ++ [p] ∧
    (d.Write p).2.Writer.respond = d.Writer.respond ∧
    (d.writeAll ps).1 = (d.Writer.writeAll ps).1 ∧
    (d.writeAll ps).2.Writer = (d.Writer.writeAll ps).2 ∧
    (d.writeAll ps).2.Writer.received = d.Writer.received ++ ps := by
  refine ⟨?_, ?_, ?_, ?_⟩
  · rw [didWrite.Write_result]; rfl
  · rw [didWrite.Write_Writer]; rfl
  · rw [didWrite.Write_Writer]; rfl
  · induction ps generalizing d with
    | nil => simp [didWrite.writeAll, Writer.writeAll]
    | cons q qs ih =>
      obtain ⟨h1, h2, h3⟩ := ih (d.Write q).2
      simp only [didWrite.writeAll, Writer.writeAll]
      rw [h2] at h3
      rw [h1, h2, h3, didWrite.Write_Writer, didWrite.Write_result]
      simp [Writer.Write]

/-- C8: the wrappers created by `main` start with `wrote = false`, so that
after the run `wrote` tells whether some non-empty chunk was written to the
stream; for every wrapper and every sequence of calls of `Write` and `failed`,
`wrote` afterwards is `wrote` before OR "some call was a `Write` of a
non-empty chunk"; in particular a `Write` of the empty chunk leaves it
unchanged, a `Write` of a non-empty chunk sets it, and once it is true no
sequence of calls resets it. -/
theorem C8_wrote_is_monotone (d : didWrite) (p : List UInt8) (cs : List Call)
    (env : Env) (parsed : Flags) (name : String) (rest : List String) :
    ((main env parsed (name :: rest)).wrappers.map (fun w => (w.1.wrote, w.2.wrote)))
      = some (wroteOn .stdout (env.run name rest).writes,
              wroteOn .stderr (env.run name rest).writes) ∧
    (d.calls cs).wrote = (d.wrote || cs.any Call.writesBytes) ∧
    (d.Write []).2.wrote = d.wrote ∧
    (p ≠ [] → (d.Write p).2.wrote = true) ∧
    (d.wrote = true → (d.calls cs).wrote = true) := by
  have hcalls : ∀ (cs : List Call) (d : didWrite),
      (d.calls cs).wrote = (d.wrote || cs.any Call.writesBytes) := by
    intro cs
    induction cs with
    | nil => intro d; simp [didWrite.calls]
    | cons c cs ih =>
      intro d
      have h := ih (d.call c)
      simp only [didWrite.calls, List.foldl_cons] at h ⊢
      rw [h]
      cases c with
      | Write q => simp [didWrite.call, didWrite.Write_wrote, Call.writesBytes, Bool.or_assoc]
      | failed => simp [didWrite.call, Call.writesBytes]
  refine ⟨?_, hcalls cs d, ?_, ?_, ?_⟩
  · have hw := deliver_wrote (env.run name rest).writes
      { Writer := env.osStdout, wrote := false, track := .trackStdout }
      { Writer := env.osStderr, wrote := false, track := .trackStderr }
    simp only [Bool.false_or] at hw
    rw [← hw.1, ← hw.2]
    simp only [main]
    split <;> (try split) <;> rfl
  · simp [didWrite.Write_wrote]
  · intro hp
    simp [didWrite.Write_wrote, List.length_pos.mpr hp]
  · intro hd
    simp [hcalls cs d, hd]

/-- C8, evaluated: a wrapper that has noted a write keeps the mark through an
empty `Write`, a `failed` and another `Write`; a non-empty `Write` sets it. -/
theorem C8_witness :
    (({ overClosedPipe with wrote := true }).calls
      [.Write [], .failed, .Write helloLine]).wrote = true ∧
    (overClosedPipe.Write helloLine).2.wrote = true :=
  ⟨(C8_wrote_is_monotone { overClosedPipe with wrote := true } helloLine
      [.Write [], .failed, .Write helloLine] (envWith echoHello) ⟨false, false⟩
      "echo" ["hello"]).2.2.2.2 rfl,
   (C8_wrote_is_monotone overClosedPipe helloLine [] (envWith echoHello) ⟨false, false⟩
      "echo" ["hello"]).2.2.2.1 (by decide)⟩

/-- C10, as stated, fails: over a closed pipe, which accepts zero bytes of the
chunk and returns an error, `didWrite.Write` of a non-empty chunk sets `wrote`
although it was false before and the destination accepted no byte. -/
theorem C10_counterexample :
    overClosedPipe.wrote = false ∧
    (overClosedPipe.Write helloLine).1 = (0, some "write /dev/stdout: broken pipe") ∧
    (overClosedPipe.Write helloLine).2.wrote = true ∧
    ¬ ((overClosedPipe.Write helloLine).2.wrote = true →
        (overClosedPipe.wrote = true ∨ (overClosedPipe.Write helloLine).1.1 ≥ 1)) := by
  refine ⟨by decide, by decide, by decide, ?_⟩
  intro h
  have h2 := h (by decide)
  revert h2
  decide

/-- C10, amended: marking and forwarding happen in the same call, and for
every destination, also one that fails or accepts zero bytes, `wrote` is true
after `didWrite.Write` exactly if it was true before or the chunk handed over
was non-empty, whatever count and error the destination returned; the mark
does not depend on the behaviour of the destination. -/
theorem C10_wrote_follows_chunk (d : didWrite) (p : List UInt8)
    (respond2 : List (List UInt8) → List UInt8 → Int × GoError) :
    ((d.Write p).2.wrote = true ↔ (d.wrote = true ∨ p ≠ [])) ∧
    (d.Write p).2.Writer.received = d.Writer.received ++ [p] ∧
    (({ d with Writer := { d.Writer with respond := respond2 } } : didWrite).Write p).2.wrote
      = (d.Write p).2.wrote := by
  refine ⟨?_, ?_, ?_⟩
  · rw [didWrite.Write_wrote]
    simp [List.length_pos]
  · rw [didWrite.Write_Writer]; rfl
  · rw [didWrite.Write_wrote, didWrite.Write_wrote]

end Ifwr
